import Mathlib

/-!
Verification of the Bitcoin trading bot's core logic (signal rules, risk gate,
execution loop, trade journal), shallowly embedded from `binance_trader.py`
and `utils.py`.

Conventions of the embedding:
* Prices and other float quantities are modelled as rationals (`ℚ`).
* Pandas/NumPy `NaN` is modelled as `none : Option ℚ`; any comparison
  involving `NaN` evaluates to `False` in pandas, which the helpers
  `nlt`/`ngt` reproduce.
* Calendar dates are modelled as natural numbers (day index); wall-clock
  reads (`datetime.now()`) become explicit parameters.
* The exchange client and the TA-Lib library are external collaborators:
  their results enter as explicit inputs (ticker price, order success flag,
  opaque per-index indicator series).
-/

/-- Result of one `execute_trade` call, `binance_trader.py` lines 164-194.
`declined` and `orderFailed` correspond to the Python function returning
`None`; `unboundLocalError` marks the path where the `except` handler itself
raises because `current_price` was never assigned; `success` returns the
order (we retain the fetched price). -/
inductive TradeResult where
  | declined
  | unboundLocalError
  | orderFailed
  | success (price : ℚ)
deriving DecidableEq

/-- `true` exactly on the path where `create_order` succeeded. -/
def TradeResult.isSuccess : TradeResult → Bool
  | .success _ => true
  | _ => false

/-- `true` on the paths where the Python function returns `None`. -/
def TradeResult.returnsNone : TradeResult → Bool
  | .declined => true
  | .orderFailed => true
  | _ => false

/-- Log lines emitted by `execute_trade` (`log_signal` / `log_trade_execution`). -/
inductive ExecLog where
  | holdLimit
  | pending
  | successLog
  | failedLog
deriving DecidableEq

/-- `RiskManager.__init__` state, `utils.py` lines 22-28.  `stop_loss` and
`take_profit` are loaded from the environment but never used elsewhere. -/
structure RiskManager where
  max_trades : ℕ
  stop_loss : ℚ
  take_profit : ℚ
  trades_today : ℕ
  last_trade_date : Option ℕ
deriving DecidableEq

/-- Fresh `RiskManager` as built by `__init__`: `trades_today = 0`,
`last_trade_date = None`. -/
def RiskManager.init (maxTrades : ℕ) (sl tp : ℚ) : RiskManager :=
  ⟨maxTrades, sl, tp, 0, none⟩

/-- `RiskManager.can_trade`, `utils.py` lines 30-43: lazy daily reset, then
the `trades_today >= max_trades` check.  Returns the boolean together with
the (possibly reset) state, since Python mutates `self`. -/
def can_trade (today : ℕ) (rm : RiskManager) : Bool × RiskManager :=
  let rm1 := if rm.last_trade_date = some today then rm
             else { rm with trades_today := 0, last_trade_date := some today }
  if rm1.max_trades ≤ rm1.trades_today then (false, rm1) else (true, rm1)

/-- `RiskManager.update_trade_count`, `utils.py` lines 45-48. -/
def update_trade_count (rm : RiskManager) : RiskManager :=
  { rm with trades_today := rm.trades_today + 1 }

/-- `BinanceTrader.execute_trade`, `binance_trader.py` lines 164-194.
Inputs from collaborators: `today` (clock), `ticker` (`get_symbol_ticker`
result, `none` = the call raised), `orderOk` (`create_order` outcome).
The `except` handler references the local `current_price`; if the ticker
fetch raised, that local is unbound and the handler raises
`UnboundLocalError` instead of logging FAILED. -/
def execute_trade (today : ℕ) (ticker : Option ℚ) (orderOk : Bool)
    (rm : RiskManager) : TradeResult × List ExecLog × RiskManager :=
  let gate := can_trade today rm
  if gate.1 = false then
    (.declined, [.holdLimit], gate.2)
  else
    match ticker with
    | none => (.unboundLocalError, [], gate.2)
    | some price =>
      if orderOk then
        (.success price, [.pending, .successLog], update_trade_count gate.2)
      else
        (.orderFailed, [.pending, .failedLog], gate.2)

/-- One granted trade: `can_trade` (returning true) followed by
`update_trade_count`, the check-then-act pair of the execution path. -/
def grant_and_record (d : ℕ) (rm : RiskManager) : RiskManager :=
  update_trade_count (can_trade d rm).2

/-- A scripted sequence of `execute_trade` calls: each step carries the
current day, the ticker outcome and the order outcome. -/
def runTrades (steps : List (ℕ × Option ℚ × Bool)) (rm : RiskManager) : RiskManager :=
  steps.foldl (fun s p => (execute_trade p.1 p.2.1 p.2.2 s).2.2) rm

/-- Claim C7: `can_trade` first performs the lazy daily reset (stored date
differs from today ⇒ counter zeroed and date updated) and then returns
`true` iff the (post-reset) `trades_today` is strictly below
`max_trades_per_day`. -/
theorem can_trade_lazy_reset_then_compare (today : ℕ) (rm : RiskManager) :
    (can_trade today rm).2.last_trade_date = some today
    ∧ (can_trade today rm).2.trades_today
        = (if rm.last_trade_date = some today then rm.trades_today else 0)
    ∧ (can_trade today rm).2.max_trades = rm.max_trades
    ∧ (can_trade today rm).1
        = decide ((can_trade today rm).2.trades_today < rm.max_trades) := by
  unfold can_trade
  by_cases hd : rm.last_trade_date = some today
  · simp only [hd, if_true]
    by_cases hc : rm.max_trades ≤ rm.trades_today
    · simp [hc, hd, Nat.not_lt.mpr hc]
    · simp [hc, hd, Nat.lt_of_not_le hc]
  · simp only [hd, if_false]
    by_cases hc : rm.max_trades ≤ (0 : ℕ)
    · simp [hc, hd, Nat.not_lt.mpr hc]
    · simp [hc, hd, Nat.lt_of_not_le hc]

/-- Helper: the state after `k + 1` granted-and-recorded trades on day `d`
starting from a fresh manager. -/
theorem grant_and_record_iterate (m k d : ℕ) (sl tp : ℚ) (hk : k < m) :
    (grant_and_record d)^[k + 1] (RiskManager.init m sl tp)
      = ⟨m, sl, tp, k + 1, some d⟩ := by
  induction k with
  | zero =>
    simp [Function.iterate_one, grant_and_record, can_trade, update_trade_count,
      RiskManager.init, Nat.not_le.mpr hk]
  | succ n ih =>
    have hn : n < m := Nat.lt_of_succ_lt hk
    rw [Function.iterate_succ_apply', ih hn]
    simp [grant_and_record, can_trade, update_trade_count, Nat.not_le.mpr hk]

/-- Claim C4: with each permitted call followed by recording the trade,
the first `max_trades_per_day` calls to `can_trade` on one calendar day
return `true`, the `(max_trades_per_day + 1)`-th returns `false`, and once
the date advances by one day `can_trade` returns `true` again. -/
theorem daily_limit_cycle (m d : ℕ) (sl tp : ℚ) (hm : 0 < m) :
    (∀ k, k < m →
      (can_trade d ((grant_and_record d)^[k] (RiskManager.init m sl tp))).1 = true)
    ∧ (can_trade d ((grant_and_record d)^[m] (RiskManager.init m sl tp))).1 = false
    ∧ (can_trade (d + 1) ((grant_and_record d)^[m] (RiskManager.init m sl tp))).1 = true := by
  refine ⟨?_, ?_, ?_⟩
  · intro k hk
    match k, hk with
    | 0, _ =>
      simp [can_trade, RiskManager.init, Nat.not_le.mpr hm]
    | (n + 1), hk =>
      rw [grant_and_record_iterate m n d sl tp (Nat.lt_of_succ_lt hk)]
      simp [can_trade, Nat.not_le.mpr hk]
  · have hm1 : m - 1 < m := Nat.sub_lt hm Nat.one_pos
    have hs : m - 1 + 1 = m := Nat.succ_pred_eq_of_pos hm
    have hit := grant_and_record_iterate m (m - 1) d sl tp hm1
    rw [hs] at hit
    rw [hit]
    simp [can_trade]
  · have hm1 : m - 1 < m := Nat.sub_lt hm Nat.one_pos
    have hs : m - 1 + 1 = m := Nat.succ_pred_eq_of_pos hm
    have hit := grant_and_record_iterate m (m - 1) d sl tp hm1
    rw [hs] at hit
    rw [hit]
    simp [can_trade, Nat.not_le.mpr hm]

/-- Witness for C4 at `max_trades_per_day = 2`, day `0`. -/
theorem daily_limit_cycle_witness :
    (can_trade 0 ((grant_and_record 0)^[2] (RiskManager.init 2 2 3))).1 = false
    ∧ (can_trade 1 ((grant_and_record 0)^[2] (RiskManager.init 2 2 3))).1 = true :=
  ⟨(daily_limit_cycle 2 0 2 3 (by decide)).2.1,
   (daily_limit_cycle 2 0 2 3 (by decide)).2.2⟩

/-- Helper: a single `execute_trade` call preserves the daily-cap invariant
and never changes `max_trades`. -/
theorem execute_trade_preserves_cap (today : ℕ) (t : Option ℚ) (ok : Bool)
    (rm : RiskManager) (h : rm.trades_today ≤ rm.max_trades) :
    (execute_trade today t ok rm).2.2.trades_today
        ≤ (execute_trade today t ok rm).2.2.max_trades
    ∧ (execute_trade today t ok rm).2.2.max_trades = rm.max_trades := by
  unfold execute_trade can_trade update_trade_count
  by_cases hd : rm.last_trade_date = some today
  · by_cases hc : rm.max_trades ≤ rm.trades_today
    · simp [hd, hc] <;> omega
    · cases t with
      | none => simp [hd, hc] <;> omega
      | some p =>
        cases ok with
        | false => simp [hd, hc] <;> omega
        | true => simp [hd, hc] <;> omega
  · by_cases hc : rm.max_trades ≤ (0 : ℕ)
    · simp [hd, hc] <;> omega
    · cases t with
      | none => simp [hd, hc] <;> omega
      | some p =>
        cases ok with
        | false => simp [hd, hc] <;> omega
        | true => simp [hd, hc] <;> omega

/-- Claim C5: along any scripted sequence of `execute_trade` invocations,
if the counter starts at or below the cap then it stays at or below the cap
(so in particular it is within the cap at the moment each new trade is
considered), and the cap itself is never altered. -/
theorem risk_cap_invariant (steps : List (ℕ × Option ℚ × Bool)) (rm : RiskManager)
    (h : rm.trades_today ≤ rm.max_trades) :
    (runTrades steps rm).trades_today ≤ (runTrades steps rm).max_trades
    ∧ (runTrades steps rm).max_trades = rm.max_trades := by
  induction steps generalizing rm with
  | nil => exact ⟨h, rfl⟩
  | cons s rest ih =>
    have hstep := execute_trade_preserves_cap s.1 s.2.1 s.2.2 rm h
    have hrec := ih (execute_trade s.1 s.2.1 s.2.2 rm).2.2
      (hstep.2 ▸ hstep.1)
    refine ⟨hrec.1, ?_⟩
    rw [runTrades] at hrec ⊢
    simpa [hstep.2] using hrec.2

/-- Witness for C5: two successful trades against cap 1 starting from a
fresh manager; the counter ends at 1, not above the cap. -/
theorem risk_cap_invariant_witness :
    (runTrades [(0, some 5, true), (0, some 6, true)] (RiskManager.init 1 2 3)).trades_today
      ≤ (runTrades [(0, some 5, true), (0, some 6, true)] (RiskManager.init 1 2 3)).max_trades :=
  (risk_cap_invariant [(0, some 5, true), (0, some 6, true)]
    (RiskManager.init 1 2 3) (by decide)).1

/-- Claim C6: within one calendar day, `execute_trade` bumps the counter by
exactly 1 when the order is submitted successfully and leaves it unchanged
otherwise; success happens exactly when the gate, the ticker fetch and the
order all succeed; and the declined / failed-order paths return `None`. -/
theorem execute_trade_counting (today : ℕ) (t : Option ℚ) (ok : Bool)
    (rm : RiskManager) (h : rm.last_trade_date = some today) :
    (execute_trade today t ok rm).2.2.trades_today
        = rm.trades_today
          + (if (execute_trade today t ok rm).1.isSuccess then 1 else 0)
    ∧ (execute_trade today t ok rm).1.isSuccess
        = ((can_trade today rm).1 && t.isSome && ok)
    ∧ ((execute_trade today t ok rm).1 = TradeResult.declined
        ∨ (execute_trade today t ok rm).1 = TradeResult.orderFailed →
        (execute_trade today t ok rm).1.returnsNone = true
        ∧ (execute_trade today t ok rm).2.2.trades_today = rm.trades_today) := by
  unfold execute_trade can_trade update_trade_count
  by_cases hc : rm.max_trades ≤ rm.trades_today
  · simp [h, hc, TradeResult.isSuccess, TradeResult.returnsNone]
  · cases t with
    | none => simp [h, hc, TradeResult.isSuccess, TradeResult.returnsNone]
    | some p =>
      cases ok with
      | false => simp [h, hc, TradeResult.isSuccess, TradeResult.returnsNone]
      | true => simp [h, hc, TradeResult.isSuccess, TradeResult.returnsNone]

/-- Witness for C6: gate open, ticker ok, order ok ⇒ counter goes from 1 to 2. -/
theorem execute_trade_counting_witness :
    (execute_trade 0 (some 5) true ⟨3, 2, 3, 1, some 0⟩).2.2.trades_today = 2 := by
  have h := execute_trade_counting 0 (some 5) true ⟨3, 2, 3, 1, some 0⟩ rfl
  simpa using h.1

/-- Claim C9: if the gate passes but `get_symbol_ticker` raises before
`current_price` is assigned, the `except` handler raises
`UnboundLocalError` and no FAILED line is logged; whereas a failure after
the price fetch (the order itself failing) does reach the FAILED log. -/
theorem execute_trade_unbound_local (today : ℕ) (ok : Bool) (p : ℚ)
    (rm : RiskManager) (h : (can_trade today rm).1 = true) :
    ((execute_trade today none ok rm).1 = TradeResult.unboundLocalError
      ∧ ExecLog.failedLog ∉ (execute_trade today none ok rm).2.1)
    ∧ ((execute_trade today (some p) false rm).1 = TradeResult.orderFailed
      ∧ ExecLog.failedLog ∈ (execute_trade today (some p) false rm).2.1) := by
  unfold execute_trade
  simp [h]

/-- Witness for C9 at a fresh manager with cap 3 on day 0. -/
theorem execute_trade_unbound_local_witness :
    (execute_trade 0 none true (RiskManager.init 3 2 3)).1
      = TradeResult.unboundLocalError
    ∧ ExecLog.failedLog ∈ (execute_trade 0 (some 7) false (RiskManager.init 3 2 3)).2.1 :=
  ⟨(execute_trade_unbound_local 0 true 7 (RiskManager.init 3 2 3) (by decide)).1.1,
   (execute_trade_unbound_local 0 true 7 (RiskManager.init 3 2 3) (by decide)).2.2⟩

/-! ## Trade journal (`TradeLogger`, `utils.py` lines 135-175)

The CSV file is modelled as a list of rows, each row a list of cells. -/

/-- One CSV cell: a string, a number, or an empty/NaN cell (how pandas
round-trips Python `None`). -/
inductive Cell where
  | str : String → Cell
  | num : ℚ → Cell
  | nan : Cell
deriving DecidableEq

/-- `TradeLogger.ensure_log_file_exists`: the fresh file holds only the
header row, with columns in the order written at `utils.py` line 143. -/
def ensure_log_file_exists : List (List Cell) :=
  [[.str "timestamp", .str "symbol", .str "side", .str "quantity",
    .str "price", .str "pnl", .str "strategy"]]

/-- `TradeLogger.log_trade`: appends one row without a header, with cells
in the insertion order of the `trade_data` dict (`utils.py` lines 149-160):
timestamp, symbol, side, quantity, price, strategy, pnl. -/
def log_trade (file : List (List Cell)) (now : ℚ) (symbol side : String)
    (quantity price : ℚ) (strategy : String) (pnl : Option ℚ) : List (List Cell) :=
  file ++ [[.num now, .str symbol, .str side, .num quantity, .num price,
    .str strategy, (match pnl with | some q => .num q | none => .nan)]]

/-- The data rows of the file (everything after the header), as
`pd.read_csv` sees them. -/
def read_rows (file : List (List Cell)) : List (List Cell) :=
  file.drop 1

/-- Position of a named column according to the header row, as
`pd.read_csv` resolves column labels. -/
def colIndex (file : List (List Cell)) (col : String) : Option ℕ :=
  (file.headD []).findIdx? (fun f => f == Cell.str col)

/-- Cell of data row `r` under the named column, resolved positionally via
the header — how a value written by `log_trade` is read back. -/
def cellUnder (file : List (List Cell)) (r : ℕ) (col : String) : Option Cell :=
  match colIndex file col with
  | none => none
  | some ci => ((read_rows file).getD r []).get? ci

/-- `TradeLogger.get_trade_history`: keep the data rows whose timestamp is
at or after the cutoff (`utils.py` lines 166-172). -/
def get_trade_history (file : List (List Cell)) (cutoff : ℚ) : List (List Cell) :=
  (read_rows file).filter (fun r =>
    match r.headD Cell.nan with
    | .num t => decide (cutoff ≤ t)
    | _ => false)

/-- Claim C3 (bug evaluation): one record written after file creation is
returned by a covering history query, but its fields do not round-trip:
the header says `..., price, pnl, strategy` while the appended row is
`..., price, strategy, pnl`, so the strategy value is read back under the
`pnl` column and the `strategy` column reads the (empty) pnl cell. -/
theorem journal_column_swap :
    (get_trade_history
        (log_trade ensure_log_file_exists 5 "BTCUSDT" "BUY" (1/1000) 100 "BB_SQUEEZE" none)
        0).length = 1
    ∧ cellUnder
        (log_trade ensure_log_file_exists 5 "BTCUSDT" "BUY" (1/1000) 100 "BB_SQUEEZE" none)
        0 "pnl" = some (Cell.str "BB_SQUEEZE")
    ∧ cellUnder
        (log_trade ensure_log_file_exists 5 "BTCUSDT" "BUY" (1/1000) 100 "BB_SQUEEZE" none)
        0 "strategy" = some Cell.nan := by
  refine ⟨?_, ?_, ?_⟩ <;> decide

/-! ## Outer analysis loop (`main`, `binance_trader.py` lines 254-289) -/

/-- The `while True` loop of `main`, driven by a script of cycle outcomes
(`true` = `run_strategy` and the subsequent sleep raise nothing, `false` =
the cycle raises).  Returns the list of sleep durations performed and
whether the loop terminated via the max-retries `break`.  An exhausted
script means the process is still looping. -/
def mainLoop (maxRetries retryDelay interval : ℕ) :
    ℕ → List Bool → List ℕ × Bool
  | _, [] => ([], false)
  | retryCount, outcome :: rest =>
    if outcome then
      let r := mainLoop maxRetries retryDelay interval 0 rest
      (interval :: r.1, r.2)
    else
      if maxRetries ≤ retryCount + 1 then ([], true)
      else
        let r := mainLoop maxRetries retryDelay interval (retryCount + 1) rest
        (retryDelay :: r.1, r.2)

/-- Unfolding equation: a raising cycle either breaks the loop (budget
reached, no further sleep) or sleeps the retry delay and continues with an
incremented counter. -/
theorem mainLoop_cons_false (m d iv rc : ℕ) (rest : List Bool) :
    mainLoop m d iv rc (false :: rest)
      = if m ≤ rc + 1 then ([], true)
        else (d :: (mainLoop m d iv (rc + 1) rest).1,
              (mainLoop m d iv (rc + 1) rest).2) := by
  simp [mainLoop]

/-- Unfolding equation: a non-raising cycle sleeps the full interval and
continues with the counter reset to 0. -/
theorem mainLoop_cons_true (m d iv rc : ℕ) (rest : List Bool) :
    mainLoop m d iv rc (true :: rest)
      = (iv :: (mainLoop m d iv 0 rest).1, (mainLoop m d iv 0 rest).2) := by
  simp [mainLoop]

/-- Helper: from a retry count `rc` with `rc + j = maxRetries`, `j ≥ 1`
further consecutive failing cycles terminate the loop after `j - 1`
retry-delay sleeps. -/
theorem mainLoop_consecutive_failures (m d iv : ℕ) :
    ∀ j rc rest, 1 ≤ j → rc + j = m →
      mainLoop m d iv rc (List.replicate j false ++ rest)
        = (List.replicate (j - 1) d, true) := by
  intro j
  induction j with
  | zero => intro rc rest h1 _; omega
  | succ n ih =>
    intro rc rest _ hsum
    rw [List.replicate_succ, List.cons_append, mainLoop_cons_false]
    cases n with
    | zero =>
      rw [if_pos (by omega)]
      simp
    | succ k =>
      rw [if_neg (by omega), ih (rc + 1) rest (by omega) (by omega)]
      simp [List.replicate_succ]

/-- Claim C8: starting from a zero retry counter, `max_retries` cycles each
raising an error terminate the loop, with the shorter retry delay slept
between consecutive failures (`max_retries - 1` times, none after the
final failure); and any non-raising cycle resets the counter to 0 and
sleeps the full analysis interval. -/
theorem main_loop_retry_budget (m d iv : ℕ) (hm : 0 < m) :
    (∀ rest, mainLoop m d iv 0 (List.replicate m false ++ rest)
        = (List.replicate (m - 1) d, true))
    ∧ (∀ rc rest, mainLoop m d iv rc (true :: rest)
        = (iv :: (mainLoop m d iv 0 rest).1, (mainLoop m d iv 0 rest).2)) := by
  constructor
  · intro rest
    exact mainLoop_consecutive_failures m d iv m 0 rest hm (by omega)
  · intro rc rest
    simp [mainLoop]

/-- Witness for C8 with `max_retries = 3`, retry delay 60, interval 900. -/
theorem main_loop_retry_budget_witness :
    mainLoop 3 60 900 0 (List.replicate 3 false ++ [])
        = (List.replicate 2 60, true)
    ∧ mainLoop 3 60 900 2 (true :: [false])
        = (900 :: (mainLoop 3 60 900 0 [false]).1, (mainLoop 3 60 900 0 [false]).2) :=
  ⟨(main_loop_retry_budget 3 60 900 (by decide)).1 [],
   (main_loop_retry_budget 3 60 900 (by decide)).2 2 [false]⟩

/-! ## Candle data and indicator pipeline
(`get_historical_klines`, `DataProcessor`, `run_strategy`) -/

/-- One cleaned OHLCV bar (`open` is a Lean keyword, hence `open_`). -/
structure Candle where
  open_ : ℚ
  high : ℚ
  low : ℚ
  close : ℚ
  volume : ℚ
deriving DecidableEq, Inhabited

/-- A raw fetched bar whose numeric cells may be NaN. -/
structure RawCandle where
  open_ : Option ℚ
  high : Option ℚ
  low : Option ℚ
  close : Option ℚ
  volume : Option ℚ
deriving DecidableEq

/-- `DataProcessor.clean_data`, `utils.py` lines 62-74: `df.dropna()`
removes every row holding a NaN. -/
def clean_data (raw : List RawCandle) : List Candle :=
  raw.filterMap fun r =>
    match r.open_, r.high, r.low, r.close, r.volume with
    | some o, some h, some l, some c, some v => some ⟨o, h, l, c, v⟩
    | _, _, _, _, _ => none

/-- Pandas `x < y` where either side may be NaN: NaN comparisons are false. -/
def nlt (a b : Option ℚ) : Bool :=
  match a, b with
  | some x, some y => decide (x < y)
  | _, _ => false

/-- Pandas `x > y` where either side may be NaN: NaN comparisons are false. -/
def ngt (a b : Option ℚ) : Bool :=
  match a, b with
  | some x, some y => decide (x > y)
  | _, _ => false

/-- Elementwise binary operation with NaN propagation. -/
def omap2 (f : ℚ → ℚ → ℚ) (a b : Option ℚ) : Option ℚ :=
  match a, b with
  | some x, some y => some (f x y)
  | _, _ => none

/-- A dataframe column of length `len`: entries are NaN (`none`) or a value. -/
def colOf (f : Candle → ℚ) (df : List Candle) : ℕ → Option ℚ := fun i =>
  if i < df.length then some (f (df.getD i default)) else none

/-- `series.shift()`: entry 0 becomes NaN, entry `i` is the previous value. -/
def shiftCol (f : Candle → ℚ) (df : List Candle) : ℕ → Option ℚ := fun i =>
  if 1 ≤ i ∧ i < df.length then some (f (df.getD (i - 1) default)) else none

/-- `df['close'].pct_change()`: NaN at index 0, otherwise the relative change. -/
def pct_change (df : List Candle) : ℕ → Option ℚ := fun i =>
  if 1 ≤ i ∧ i < df.length then
    some ((df.getD i default).close / (df.getD (i - 1) default).close - 1)
  else none

/-- The `w` cells ending at index `i` (pandas rolling window). -/
def winVals (xs : ℕ → Option ℚ) (w i : ℕ) : List (Option ℚ) :=
  (List.range w).map fun k => xs (i + 1 - w + k)

/-- Pandas `series.rolling(window=w).agg(f)` over a column of length `len`:
NaN while fewer than `w` observations exist or any cell in the window is
NaN, otherwise `f` of the window's values. -/
def rolling (f : List ℚ → ℚ) (w len : ℕ) (xs : ℕ → Option ℚ) : ℕ → Option ℚ := fun i =>
  if i < len ∧ w ≤ i + 1 then
    if (winVals xs w i).all Option.isSome then
      some (f ((winVals xs w i).filterMap id))
    else none
  else none

/-- Arithmetic mean of a window. -/
def listMean (l : List ℚ) : ℚ := l.sum / l.length

/-- Pandas sample standard deviation (ddof = 1) of a window; the square
root is the numeric library's kernel, supplied as the parameter `sq`. -/
def sampleStd (sq : ℚ → ℚ) (l : List ℚ) : ℚ :=
  sq ((l.map fun x => (x - listMean l) ^ 2).sum / ((l.length : ℚ) - 1))

/-- `DataProcessor.calculate_volatility`, `utils.py` lines 80-85: rolling
std of the close-price percentage change (window defaults to 20 and the
caller passes no other value). -/
def calculate_volatility (sq : ℚ → ℚ) (df : List Candle) (window : ℕ) : ℕ → Option ℚ :=
  rolling (sampleStd sq) window df.length (pct_change df)

/-- `DataProcessor.calculate_bollinger_bands`, `utils.py` lines 91-98:
(upper, middle, lower). -/
def calculate_bollinger_bands (sq : ℚ → ℚ) (df : List Candle) (window : ℕ)
    (num_std : ℚ) : (ℕ → Option ℚ) × (ℕ → Option ℚ) × (ℕ → Option ℚ) :=
  let middle := rolling listMean window df.length (colOf Candle.close df)
  let std := rolling (sampleStd sq) window df.length (colOf Candle.close df)
  (fun i => omap2 (fun m s => m + s * num_std) (middle i) (std i),
   middle,
   fun i => omap2 (fun m s => m - s * num_std) (middle i) (std i))

/-- `np.max` over high−low, |high−prev close|, |low−prev close|, NaN at
index 0 via the shifted close (`utils.py` lines 108-112). -/
def true_range (df : List Candle) : ℕ → Option ℚ := fun i =>
  omap2 max (colOf (fun c => c.high - c.low) df i)
    (omap2 max
      (omap2 (fun a b => |a - b|) (colOf Candle.high df i) (shiftCol Candle.close df i))
      (omap2 (fun a b => |a - b|) (colOf Candle.low df i) (shiftCol Candle.close df i)))

/-- `DataProcessor.calculate_keltner_channels`, `utils.py` lines 104-120:
(upper, middle, lower). -/
def calculate_keltner_channels (df : List Candle) (window : ℕ) (atr_mult : ℚ) :
    (ℕ → Option ℚ) × (ℕ → Option ℚ) × (ℕ → Option ℚ) :=
  let atr := rolling listMean window df.length (true_range df)
  let middle := rolling listMean window df.length (colOf Candle.close df)
  (fun i => omap2 (fun m a => m + a * atr_mult) (middle i) (atr i),
   middle,
   fun i => omap2 (fun m a => m - a * atr_mult) (middle i) (atr i))

/-- The TA-Lib library (RSI, MACD, ADX), an external collaborator: each
indicator is an opaque per-index series of the input frame, parameterised
by its configured periods. -/
structure Talib where
  RSI : ℕ → List Candle → ℕ → Option ℚ
  MACD : ℕ → ℕ → ℕ → List Candle → ℕ → Option ℚ
  MACDsig : ℕ → ℕ → ℕ → List Candle → ℕ → Option ℚ
  ADX : ℕ → List Candle → ℕ → Option ℚ

/-- The strategy parameters loaded in `BinanceTrader.__init__`
(`binance_trader.py` lines 61-72). -/
structure Config where
  bb_window : ℕ
  bb_std : ℚ
  keltner_window : ℕ
  keltner_atr_mult : ℚ
  adx_period : ℕ
  adx_threshold : ℚ
  rsi_period : ℕ
  macd_fast : ℕ
  macd_slow : ℕ
  macd_sig : ℕ

/-- The environment defaults (`config_validator.py` OPTIONAL_VARS). -/
def defaultConfig : Config := ⟨20, 2, 20, 3/2, 14, 25, 14, 12, 26, 9⟩

/-- The augmented dataframe built by `get_historical_klines`
(`binance_trader.py` lines 112-132) from an already-cleaned series. -/
structure Frame where
  len : ℕ
  close : ℕ → ℚ
  volatility : ℕ → Option ℚ
  upper_bb : ℕ → Option ℚ
  middle_bb : ℕ → Option ℚ
  lower_bb : ℕ → Option ℚ
  upper_kc : ℕ → Option ℚ
  middle_kc : ℕ → Option ℚ
  lower_kc : ℕ → Option ℚ
  adx : ℕ → Option ℚ
  rsi : ℕ → Option ℚ
  macd : ℕ → Option ℚ
  signal : ℕ → Option ℚ
  squeeze : ℕ → Bool

/-- Indicator computation of `get_historical_klines`: volatility, Bollinger
Bands, Keltner Channels, ADX, RSI, MACD and the squeeze flag
`(upper_bb < upper_kc) & (lower_bb > lower_kc)`. -/
def buildFrame (sq : ℚ → ℚ) (ta : Talib) (cfg : Config) (df : List Candle) : Frame :=
  let vol := calculate_volatility sq df 20
  let bb := calculate_bollinger_bands sq df cfg.bb_window cfg.bb_std
  let kc := calculate_keltner_channels df cfg.keltner_window cfg.keltner_atr_mult
  { len := df.length
    close := fun i => (df.getD i default).close
    volatility := vol
    upper_bb := bb.1
    middle_bb := bb.2.1
    lower_bb := bb.2.2
    upper_kc := kc.1
    middle_kc := kc.2.1
    lower_kc := kc.2.2
    adx := ta.ADX cfg.adx_period df
    rsi := ta.RSI cfg.rsi_period df
    macd := ta.MACD cfg.macd_fast cfg.macd_slow cfg.macd_sig df
    signal := ta.MACDsig cfg.macd_fast cfg.macd_slow cfg.macd_sig df
    squeeze := fun i => nlt (bb.1 i) (kc.1 i) && ngt (bb.2.2 i) (kc.2.2 i) }

/-! ## Signal evaluation (`run_strategy`, `binance_trader.py` lines 196-252) -/

/-- The per-row values `run_strategy` reads through `df.iloc[...]`. -/
structure Snapshot where
  close : ℚ
  volatility : Option ℚ
  upper_bb : Option ℚ
  lower_bb : Option ℚ
  upper_kc : Option ℚ
  lower_kc : Option ℚ
  adx : Option ℚ
  rsi : Option ℚ
  macd : Option ℚ
  signal : Option ℚ
  squeeze : Bool

/-- Row `i` of the frame, as read by `df.iloc`. -/
def snapshotAt (F : Frame) (i : ℕ) : Snapshot :=
  ⟨F.close i, F.volatility i, F.upper_bb i, F.lower_bb i, F.upper_kc i,
   F.lower_kc i, F.adx i, F.rsi i, F.macd i, F.signal i, F.squeeze i⟩

/-- Observable actions of one `run_strategy` cycle: colored signal logs
(`log_signal`) and trade attempts (`execute_trade` calls). -/
inductive CycleAction where
  | logSignal : String → String → CycleAction
  | trade : String → String → CycleAction
deriving DecidableEq

/-- First `if` block of `run_strategy` (lines 230-236): Bollinger-Band
squeeze breakout. -/
def squeeze_rule (previous current : Snapshot) (adx_threshold : ℚ) : List CycleAction :=
  if previous.squeeze && !current.squeeze && ngt current.adx (some adx_threshold) then
    if ngt (some current.close) current.upper_bb then
      [CycleAction.logSignal "BUY" "Upward breakout from BB squeeze",
       CycleAction.trade "BUY" "BB_SQUEEZE"]
    else if nlt (some current.close) current.lower_bb then
      [CycleAction.logSignal "SELL" "Downward breakout from BB squeeze",
       CycleAction.trade "SELL" "BB_SQUEEZE"]
    else []
  else []

/-- Second `if/elif/else` block of `run_strategy` (lines 239-248): RSI +
MACD momentum, with HOLD as its own `else` branch. -/
def momentum_rule (current : Snapshot) (meanVol : Option ℚ) : List CycleAction :=
  if nlt current.rsi (some 30) && ngt current.macd current.signal
      && nlt current.volatility meanVol then
    [CycleAction.logSignal "BUY" "RSI oversold with MACD confirmation",
     CycleAction.trade "BUY" "RSI_MACD"]
  else if ngt current.rsi (some 70) && nlt current.macd current.signal
      && nlt current.volatility meanVol then
    [CycleAction.logSignal "SELL" "RSI overbought with MACD confirmation",
     CycleAction.trade "SELL" "RSI_MACD"]
  else
    [CycleAction.logSignal "HOLD" "No clear signals"]

/-- Lines 226-248 of `run_strategy`: the two blocks run in sequence on the
last two rows; the second block is not guarded by the first. -/
def strategySignals (previous current : Snapshot) (meanVol : Option ℚ)
    (adx_threshold : ℚ) : List CycleAction :=
  squeeze_rule previous current adx_threshold ++ momentum_rule current meanVol

/-- `series.mean()` with pandas default `skipna=True`: NaN only when no
observation exists. -/
def colMean (xs : ℕ → Option ℚ) (len : ℕ) : Option ℚ :=
  let vs := ((List.range len).map xs).filterMap id
  if vs.length = 0 then none else some (vs.sum / vs.length)

/-- `df.iloc[j]` index resolution: negative indices count from the end;
`none` is an `IndexError`. -/
def iloc (len : ℕ) (j : ℤ) : Option ℕ :=
  let k : ℤ := if j < 0 then (len : ℤ) + j else j
  if 0 ≤ k ∧ k < (len : ℤ) then some k.toNat else none

/-- Body of `run_strategy` after a successful fetch: read `iloc[-1]` and
`iloc[-2]`, then evaluate the rules.  `Except.error` is an uncaught
exception inside the `try`. -/
def run_strategy_body (sq : ℚ → ℚ) (ta : Talib) (cfg : Config)
    (raw : List RawCandle) : Except Unit (List CycleAction) :=
  let df := clean_data raw
  let F := buildFrame sq ta cfg df
  match iloc F.len (-1), iloc F.len (-2) with
  | some ci, some pi =>
    Except.ok (strategySignals (snapshotAt F pi) (snapshotAt F ci)
      (colMean F.volatility F.len) cfg.adx_threshold)
  | _, _ => Except.error ()

/-- `run_strategy` with its blanket `except` (lines 250-252): an exception
is swallowed, leaving no emitted signal at all. -/
def run_strategy (sq : ℚ → ℚ) (ta : Talib) (cfg : Config)
    (raw : List RawCandle) : List CycleAction :=
  match run_strategy_body sq ta cfg raw with
  | Except.ok acts => acts
  | Except.error _ => []

/-! ## NaN-propagation lemmas -/

theorem nlt_none_left (b : Option ℚ) : nlt none b = false := rfl

theorem ngt_none_left (b : Option ℚ) : ngt none b = false := rfl

theorem nlt_none_right (a : Option ℚ) : nlt a none = false := by
  cases a <;> rfl

theorem ngt_none_right (a : Option ℚ) : ngt a none = false := by
  cases a <;> rfl

theorem omap2_none_left (f : ℚ → ℚ → ℚ) (b : Option ℚ) : omap2 f none b = none := by
  cases b <;> rfl

/-- A rolling cell before the window fills is NaN. -/
theorem rolling_none_of_window (f : List ℚ → ℚ) (w len : ℕ) (xs : ℕ → Option ℚ)
    (i : ℕ) (h : i + 1 < w) : rolling f w len xs i = none := by
  unfold rolling
  rw [if_neg]
  rintro ⟨_, h2⟩
  omega

/-- A rolling cell past the end of the column is NaN. -/
theorem rolling_none_of_len (f : List ℚ → ℚ) (w len : ℕ) (xs : ℕ → Option ℚ)
    (i : ℕ) (h : len ≤ i) : rolling f w len xs i = none := by
  unfold rolling
  rw [if_neg]
  rintro ⟨h1, _⟩
  omega

/-- A rolling cell whose window begins on a NaN cell is NaN. -/
theorem rolling_none_of_first_none (f : List ℚ → ℚ) (w len : ℕ) (xs : ℕ → Option ℚ)
    (i : ℕ) (h0 : 0 < w) (h2 : xs (i + 1 - w) = none) :
    rolling f w len xs i = none := by
  unfold rolling
  by_cases hc : i < len ∧ w ≤ i + 1
  · rw [if_pos hc, if_neg]
    intro hall
    have hmem : (none : Option ℚ) ∈ winVals xs w i := by
      unfold winVals
      refine List.mem_map.mpr ⟨0, List.mem_range.mpr h0, ?_⟩
      simpa using h2
    have := List.all_eq_true.mp hall none hmem
    simp at this
  · rw [if_neg hc]

/-- With at most 20 candles the volatility column is NaN everywhere: its
window is 20 and the underlying `pct_change` is NaN at index 0. -/
theorem volatility_none (sq : ℚ → ℚ) (df : List Candle) (h : df.length ≤ 20)
    (i : ℕ) : calculate_volatility sq df 20 i = none := by
  unfold calculate_volatility
  rcases Nat.lt_or_ge (i + 1) 20 with hw | hw
  · exact rolling_none_of_window _ _ _ _ _ hw
  · rcases Nat.lt_or_ge i df.length with hl | hl
    · apply rolling_none_of_first_none _ _ _ _ _ (by omega)
      have h0 : i + 1 - 20 = 0 := by omega
      rw [h0]
      unfold pct_change
      rw [if_neg]
      rintro ⟨h1, _⟩
      omega
    · exact rolling_none_of_len _ _ _ _ _ hl

/-- An upper Bollinger Band cell before the window fills is NaN. -/
theorem bb_upper_none (sq : ℚ → ℚ) (df : List Candle) (w : ℕ) (k : ℚ)
    (i : ℕ) (h : i + 1 < w) : (calculate_bollinger_bands sq df w k).1 i = none := by
  unfold calculate_bollinger_bands
  simp only []
  rw [rolling_none_of_window listMean w df.length (colOf Candle.close df) i h,
    omap2_none_left]

/-- The frame's volatility column is exactly `calculate_volatility`. -/
theorem buildFrame_volatility (sq : ℚ → ℚ) (ta : Talib) (cfg : Config)
    (df : List Candle) :
    (buildFrame sq ta cfg df).volatility = calculate_volatility sq df 20 := rfl

/-- The frame's squeeze column is the band comparison of line 132. -/
theorem buildFrame_squeeze (sq : ℚ → ℚ) (ta : Talib) (cfg : Config)
    (df : List Candle) (i : ℕ) :
    (buildFrame sq ta cfg df).squeeze i
      = (nlt ((calculate_bollinger_bands sq df cfg.bb_window cfg.bb_std).1 i)
            ((calculate_keltner_channels df cfg.keltner_window cfg.keltner_atr_mult).1 i)
        && ngt ((calculate_bollinger_bands sq df cfg.bb_window cfg.bb_std).2.2 i)
            ((calculate_keltner_channels df cfg.keltner_window cfg.keltner_atr_mult).2.2 i)) := rfl

/-- `iloc[-1]` on a nonempty frame resolves to the last row. -/
theorem iloc_neg_one (n : ℕ) (h : 1 ≤ n) : iloc n (-1) = some (n - 1) := by
  unfold iloc
  simp only [show ((-1 : ℤ) < 0) = True by simp, if_true]
  rw [if_pos (by constructor <;> omega)]
  congr 1
  omega

/-- `iloc[-2]` on a frame with at least two rows resolves to the
second-to-last row. -/
theorem iloc_neg_two (n : ℕ) (h : 2 ≤ n) : iloc n (-2) = some (n - 2) := by
  unfold iloc
  simp only [show ((-2 : ℤ) < 0) = True by simp, if_true]
  rw [if_pos (by constructor <;> omega)]
  congr 1
  omega

/-- `iloc[-2]` raises `IndexError` when fewer than two rows exist. -/
theorem iloc_neg_two_none (n : ℕ) (h : n < 2) : iloc n (-2) = none := by
  unfold iloc
  simp only [show ((-2 : ℤ) < 0) = True by simp, if_true]
  rw [if_neg]
  rintro ⟨h1, _⟩
  omega

/-- Claim C10: when the fetched-and-cleaned series has fewer than two rows,
the `df.iloc` access raises an `IndexError` inside the `try`, the blanket
handler swallows it, and the cycle emits no action at all — no BUY, SELL
or HOLD. -/
theorem run_strategy_short_input (sq : ℚ → ℚ) (ta : Talib) (cfg : Config)
    (raw : List RawCandle) (h : (clean_data raw).length < 2) :
    run_strategy_body sq ta cfg raw = Except.error ()
    ∧ run_strategy sq ta cfg raw = [] := by
  have h2 : iloc (buildFrame sq ta cfg (clean_data raw)).len (-2) = none :=
    iloc_neg_two_none _ h
  have hbody : run_strategy_body sq ta cfg raw = Except.error () := by
    simp only [run_strategy_body]
    rw [h2]
    cases iloc (buildFrame sq ta cfg (clean_data raw)).len (-1) <;> rfl
  refine ⟨hbody, ?_⟩
  unfold run_strategy
  rw [hbody]

/-- Witness for C10: a single fully-defined candle survives cleaning, and
the cycle emits nothing. -/
theorem run_strategy_short_input_witness :
    run_strategy (fun q => q)
      ⟨fun _ _ _ => none, fun _ _ _ _ _ => none, fun _ _ _ _ _ => none,
       fun _ _ _ => none⟩
      defaultConfig [⟨some 1, some 2, some 1, some 2, some 10⟩] = [] :=
  (run_strategy_short_input (fun q => q)
    ⟨fun _ _ _ => none, fun _ _ _ _ _ => none, fun _ _ _ _ _ => none,
     fun _ _ _ => none⟩
    defaultConfig [⟨some 1, some 2, some 1, some 2, some 10⟩] (by decide)).2

/-! ## Claim C1: rule precedence in `run_strategy` -/

/-- `true` on `execute_trade` attempts. -/
def CycleAction.isTrade : CycleAction → Bool
  | .trade _ _ => true
  | _ => false

/-- Number of trade attempts in a cycle's action list. -/
def countTrades (l : List CycleAction) : ℕ :=
  (l.filter CycleAction.isTrade).length

/-- `true` on the actions emitted by the RSI/MACD momentum block. -/
def CycleAction.isMomentum : CycleAction → Bool
  | .trade _ s => s == "RSI_MACD"
  | .logSignal _ r =>
    r == "RSI oversold with MACD confirmation"
      || r == "RSI overbought with MACD confirmation"
      || r == "No clear signals"

/-- A previous row inside a squeeze; the other fields are irrelevant. -/
def prevSqueeze : Snapshot :=
  ⟨100, none, none, none, none, none, none, none, none, none, true⟩

/-- A current row that satisfies the squeeze-breakout BUY conditions
(squeeze released, ADX 30 > 25, close 105 > upper band 104) and
simultaneously the momentum BUY conditions (RSI 25 < 30, MACD 1 >
signal 0, volatility 1 below the mean 2). -/
def currBreakout : Snapshot :=
  ⟨105, some 1, some 104, some 95, none, none, some 30, some 25,
   some 1, some 0, false⟩

/-- Counterexample to claim C1: at this pair of snapshots the code fires
both rules and attempts two trades in a single cycle — the momentum block
is not skipped after a squeeze-breakout signal. -/
theorem both_rules_fire :
    strategySignals prevSqueeze currBreakout (some 2) 25
      = [CycleAction.logSignal "BUY" "Upward breakout from BB squeeze",
         CycleAction.trade "BUY" "BB_SQUEEZE",
         CycleAction.logSignal "BUY" "RSI oversold with MACD confirmation",
         CycleAction.trade "BUY" "RSI_MACD"]
    ∧ countTrades (strategySignals prevSqueeze currBreakout (some 2) 25) = 2 := by
  constructor <;> decide

theorem countTrades_append (a b : List CycleAction) :
    countTrades (a ++ b) = countTrades a + countTrades b := by
  simp [countTrades, List.filter_append]

/-- The squeeze block alone attempts at most one trade. -/
theorem countTrades_squeeze_le (prev curr : Snapshot) (thr : ℚ) :
    countTrades (squeeze_rule prev curr thr) ≤ 1 := by
  unfold squeeze_rule
  split
  · split
    · decide
    · split
      · decide
      · decide
  · decide

/-- The momentum block alone attempts at most one trade. -/
theorem countTrades_momentum_le (curr : Snapshot) (mv : Option ℚ) :
    countTrades (momentum_rule curr mv) ≤ 1 := by
  unfold momentum_rule
  split
  · decide
  · split
    · decide
    · decide

/-- The squeeze block never emits momentum-tagged actions. -/
theorem squeeze_filter_momentum (prev curr : Snapshot) (thr : ℚ) :
    (squeeze_rule prev curr thr).filter CycleAction.isMomentum = [] := by
  unfold squeeze_rule
  split
  · split
    · decide
    · split
      · decide
      · decide
  · decide

/-- The momentum block always emits something (a signal or the HOLD line). -/
theorem momentum_rule_ne_nil (curr : Snapshot) (mv : Option ℚ) :
    momentum_rule curr mv ≠ [] := by
  unfold momentum_rule
  split
  · decide
  · split
    · decide
    · decide

/-- Claim C1 as amended: the two rule blocks are evaluated independently —
each alone attempts at most one trade but a cycle can attempt up to two;
the momentum block's contribution does not depend on the previous
snapshot (hence not on whether the squeeze rule fired), and it always
emits an action (so a HOLD line appears even after a squeeze trade when
the momentum conditions fail). -/
theorem strategy_rules_independent (prev prev2 curr : Snapshot)
    (mv : Option ℚ) (thr : ℚ) :
    countTrades (strategySignals prev curr mv thr) ≤ 2
    ∧ countTrades (squeeze_rule prev curr thr) ≤ 1
    ∧ countTrades (momentum_rule curr mv) ≤ 1
    ∧ momentum_rule curr mv ≠ []
    ∧ (strategySignals prev curr mv thr).filter CycleAction.isMomentum
        = (strategySignals prev2 curr mv thr).filter CycleAction.isMomentum := by
  refine ⟨?_, countTrades_squeeze_le prev curr thr,
    countTrades_momentum_le curr mv, momentum_rule_ne_nil curr mv, ?_⟩
  · unfold strategySignals
    rw [countTrades_append]
    have h1 := countTrades_squeeze_le prev curr thr
    have h2 := countTrades_momentum_le curr mv
    omega
  · unfold strategySignals
    rw [List.filter_append, List.filter_append,
      squeeze_filter_momentum prev curr thr, squeeze_filter_momentum prev2 curr thr]

/-! ## Claim C2: short candle series -/

/-- The frame length is the cleaned series length. -/
theorem buildFrame_len (sq : ℚ → ℚ) (ta : Talib) (cfg : Config) (df : List Candle) :
    (buildFrame sq ta cfg df).len = df.length := rfl

/-- Claim C2 as amended: for a cleaned series of 2 to 20 candles (at most
the volatility/Bollinger window) the pipeline is total but propagates NaN
— the volatility column is NaN everywhere, the previous row's upper band
is NaN, so its squeeze flag evaluates to `false` — and the cycle's
decision is HOLD with reason "No clear signals" (NaN comparisons are
false), not an "insufficient data" reason. -/
theorem run_strategy_insufficient_history (sq : ℚ → ℚ) (ta : Talib)
    (raw : List RawCandle) (h2 : 2 ≤ (clean_data raw).length)
    (h20 : (clean_data raw).length ≤ 20) :
    (∀ i, (buildFrame sq ta defaultConfig (clean_data raw)).volatility i = none)
    ∧ (buildFrame sq ta defaultConfig (clean_data raw)).upper_bb
        ((clean_data raw).length - 2) = none
    ∧ (buildFrame sq ta defaultConfig (clean_data raw)).squeeze
        ((clean_data raw).length - 2) = false
    ∧ run_strategy sq ta defaultConfig raw
        = [CycleAction.logSignal "HOLD" "No clear signals"] := by
  have hvol : ∀ i,
      (buildFrame sq ta defaultConfig (clean_data raw)).volatility i = none :=
    fun i => volatility_none sq (clean_data raw) h20 i
  have hub : (buildFrame sq ta defaultConfig (clean_data raw)).upper_bb
      ((clean_data raw).length - 2) = none :=
    bb_upper_none sq (clean_data raw) 20 2 ((clean_data raw).length - 2) (by omega)
  have hsq : (buildFrame sq ta defaultConfig (clean_data raw)).squeeze
      ((clean_data raw).length - 2) = false := by
    rw [buildFrame_squeeze]
    rw [show (calculate_bollinger_bands sq (clean_data raw) defaultConfig.bb_window
          defaultConfig.bb_std).1 ((clean_data raw).length - 2) = none from hub]
    rw [nlt_none_left, Bool.false_and]
  have hps : ((snapshotAt (buildFrame sq ta defaultConfig (clean_data raw))
      ((clean_data raw).length - 2)).squeeze) = false := hsq
  have hcv : ((snapshotAt (buildFrame sq ta defaultConfig (clean_data raw))
      ((clean_data raw).length - 1)).volatility) = none :=
    hvol ((clean_data raw).length - 1)
  have hbody : run_strategy_body sq ta defaultConfig raw
      = Except.ok [CycleAction.logSignal "HOLD" "No clear signals"] := by
    simp only [run_strategy_body, buildFrame_len]
    rw [iloc_neg_one (clean_data raw).length (by omega),
      iloc_neg_two (clean_data raw).length h2]
    simp only [strategySignals, squeeze_rule, momentum_rule, hps, hcv,
      nlt_none_left, Bool.false_and, Bool.and_false, Bool.false_eq_true,
      if_false, List.nil_append]
  refine ⟨hvol, hub, hsq, ?_⟩
  unfold run_strategy
  rw [hbody]

/-- The TA-Lib collaborator on a series far shorter than every indicator
period: every output cell is NaN (what `talib.RSI`/`MACD`/`ADX` return
there). -/
def taNone : Talib :=
  ⟨fun _ _ _ => none, fun _ _ _ _ _ => none, fun _ _ _ _ _ => none,
   fun _ _ _ => none⟩

/-- Three fully-defined candles — fewer than every configured window. -/
def rawTriple : List RawCandle :=
  [⟨some 1, some 2, some 1, some 2, some 10⟩,
   ⟨some 2, some 3, some 2, some 3, some 10⟩,
   ⟨some 3, some 4, some 3, some 4, some 10⟩]

/-- Counterexample to claim C2 as stated: on a 3-candle series the cycle's
decision is HOLD with reason "No clear signals" — no "insufficient data"
reason is ever emitted. -/
theorem short_series_reason_counterexample :
    run_strategy (fun q => q) taNone defaultConfig rawTriple
      = [CycleAction.logSignal "HOLD" "No clear signals"]
    ∧ CycleAction.logSignal "HOLD" "insufficient data" ∉
        run_strategy (fun q => q) taNone defaultConfig rawTriple := by
  constructor <;> decide

/-- Witness for C2 (amended): the general theorem applied to the concrete
3-candle series. -/
theorem run_strategy_insufficient_history_witness :
    run_strategy (fun q => q) taNone defaultConfig rawTriple
      = [CycleAction.logSignal "HOLD" "No clear signals"]
    ∧ (buildFrame (fun q => q) taNone defaultConfig (clean_data rawTriple)).volatility 2
      = none :=
  ⟨(run_strategy_insufficient_history (fun q => q) taNone rawTriple
      (by decide) (by decide)).2.2.2,
   (run_strategy_insufficient_history (fun q => q) taNone rawTriple
      (by decide) (by decide)).1 2⟩
